import Mathlib

/-!
Shallow embedding of the TicketResell purchase transaction engine
(`src/src/services/transaction_service.py`, `src/src/services/payment_service.py`,
`src/src/services/earning_service.py`, `src/src/utils/momo_payment_gateway.py`,
and the callback entry points of `src/src/api/controllers/payment_controller.py`
and `src/src/api/controllers/transaction_controller.py`).

Python string statuses are kept as `String`; SQLAlchemy rows become entries of
lists inside a `DB` record; `datetime.now()` becomes a logical clock; monetary
amounts become `Rat`.  Each service method becomes a pure function from a `DB`
to a result together with the mutated `DB`; a raised exception becomes the
`err` constructor carrying the message and the database as mutated so far
(including any mutation done by the `except:` rollback blocks of the source).
-/

deriving instance DecidableEq for Except

namespace TicketResell

/-- A row of the ticket table (fields used by the transaction engine). -/
structure Ticket where
  TicketID : Nat
  OwnerID : Nat
  Status : String
deriving DecidableEq

/-- A row of the transactions table (timestamp columns are omitted; they are
never read back by the engine). -/
structure Transaction where
  TransactionID : Nat
  TicketID : Nat
  BuyerID : Nat
  SellerID : Nat
  Amount : Rat
  PaymentMethod : String
  Status : String
  PaymentTransactionID : Option String
deriving DecidableEq

/-- A row of the payment table.  `Paid_at` keeps the logical time at which it
was last set. -/
structure Payment where
  PaymentID : Nat
  Methods : String
  Status : String
  Paid_at : Option Nat
  amount : Rat
  UserID : Nat
  Title : String
  TransactionID : Option Nat
deriving DecidableEq

/-- A row of the earning table. -/
structure Earning where
  EarningID : Nat
  UserID : Nat
  TotalAmount : Rat
  Date : Nat
deriving DecidableEq

/-- The shared relational store.  `users` is the set of existing user ids,
`clock` the logical time used for `datetime.now()`. -/
structure DB where
  users : List Nat
  tickets : List Ticket
  transactions : List Transaction
  payments : List Payment
  earnings : List Earning
  nextTransactionID : Nat
  nextEarningID : Nat
  clock : Nat
deriving DecidableEq

/-- `ticket_repository.get_by_id`. -/
def DB.findTicket (db : DB) (tid : Nat) : Option Ticket :=
  db.tickets.find? (fun t => t.TicketID == tid)

/-- `ticket_repository.update`: write the row with the same primary key. -/
def DB.updateTicket (db : DB) (t : Ticket) : DB :=
  { db with tickets := db.tickets.map (fun u => if u.TicketID == t.TicketID then t else u) }

/-- `transaction_repository.get_by_id`. -/
def DB.findTransaction (db : DB) (tid : Nat) : Option Transaction :=
  db.transactions.find? (fun t => t.TransactionID == tid)

/-- `transaction_repository.update`. -/
def DB.updateTransaction (db : DB) (t : Transaction) : DB :=
  { db with transactions :=
      db.transactions.map (fun u => if u.TransactionID == t.TransactionID then t else u) }

/-- `payment_repository.get_by_id`. -/
def DB.findPayment (db : DB) (pid : Nat) : Option Payment :=
  db.payments.find? (fun p => p.PaymentID == pid)

/-- `payment_repository.update`. -/
def DB.updatePayment (db : DB) (p : Payment) : DB :=
  { db with payments := db.payments.map (fun u => if u.PaymentID == p.PaymentID then p else u) }

/-- `user_repository.get_by_id` reduced to existence. -/
def DB.userExists (db : DB) (uid : Nat) : Bool :=
  db.users.contains uid

/-- `datetime.now()`: read the logical clock and advance it. -/
def DB.tick (db : DB) : Nat × DB :=
  (db.clock, { db with clock := db.clock + 1 })

/-- `transaction_repository.add`: assign the autoincrement key and append. -/
def DB.addTransaction (db : DB) (tx : Transaction) : Transaction × DB :=
  let tx := { tx with TransactionID := db.nextTransactionID }
  (tx, { db with transactions := db.transactions ++ [tx],
                 nextTransactionID := db.nextTransactionID + 1 })

/-- `earning_repository.add` for the record built by the earning service. -/
def DB.addEarning (db : DB) (uid : Nat) (amount : Rat) : Earning × DB :=
  let (now, db) := db.tick
  let e : Earning := { EarningID := db.nextEarningID, UserID := uid,
                       TotalAmount := amount, Date := now }
  (e, { db with earnings := db.earnings ++ [e], nextEarningID := db.nextEarningID + 1 })

/-- Result of a Python method on the shared store: a normal return or a raised
exception, in both cases together with the store as left by the call. -/
inductive PyResult (α : Type) where
  | ok (val : α) (db : DB)
  | err (msg : String) (db : DB)
deriving DecidableEq

/-- The database component of a result. -/
def PyResult.database {α : Type} : PyResult α → DB
  | .ok _ db => db
  | .err _ db => db

/-!  TransactionService (src/src/services/transaction_service.py)

`initiate_transaction` is split, exactly along its source lines, into the
validation phase (lines 20-41, only reads) and the mutation phase (lines
43-64): the reservation write at lines 44-47 is decided by the status of the
ticket snapshot obtained by the read at line 21, not by a conditional update
on the row itself.  The split makes the read-then-write structure of the
source explicit so that interleavings of two concurrent calls can be stated.
-/

/-- Validation phase of `TransactionService.initiate_transaction` (lines
20-41): returns the ticket snapshot it read, or the message of the raised
`ValueError`. -/
def initiate_read (db : DB) (ticket_id buyer_id : Nat) : Except String Ticket :=
  match db.findTicket ticket_id with
  | none => .error "Ticket not found"
  | some ticket =>
    if ticket.Status ≠ "Available" ∧ ticket.Status ≠ "Reserved" then
      .error ("Ticket is not available for purchase. Current status: " ++ ticket.Status)
    else if ¬ db.userExists buyer_id then
      .error "Buyer not found"
    else if ¬ db.userExists ticket.OwnerID then
      .error "Seller not found"
    else if ticket.OwnerID = buyer_id then
      .error "Cannot purchase your own ticket"
    else
      .ok ticket

/-- Mutation phase of `TransactionService.initiate_transaction` (lines 43-64):
reserve the ticket when requested and the snapshot read earlier said
`Available`, then insert the pending transaction row. -/
def initiate_write (db : DB) (snapshot : Ticket) (ticket_id buyer_id : Nat) (amount : Rat)
    (payment_method : String) (reserve_ticket : Bool) : Transaction × DB :=
  let db :=
    if reserve_ticket ∧ snapshot.Status = "Available" then
      db.updateTicket { snapshot with Status := "Reserved" }
    else db
  db.addTransaction
    { TransactionID := 0, TicketID := ticket_id, BuyerID := buyer_id,
      SellerID := snapshot.OwnerID, Amount := amount, PaymentMethod := payment_method,
      Status := "pending", PaymentTransactionID := some "uuid4" }

/-- `TransactionService.initiate_transaction` (src/src copy, lines 15-80):
validation phase, then mutation phase; on an exception the `except:` block
(lines 68-80) resets the ticket to `Available` whenever `reserve_ticket` was
requested and the ticket is currently `Reserved`. -/
def initiate_transaction (db : DB) (ticket_id buyer_id : Nat) (amount : Rat)
    (payment_method : String) (reserve_ticket : Bool) : PyResult Transaction :=
  match initiate_read db ticket_id buyer_id with
  | .ok snapshot =>
      let r := initiate_write db snapshot ticket_id buyer_id amount payment_method reserve_ticket
      .ok r.1 r.2
  | .error e =>
      if reserve_ticket then
        match db.findTicket ticket_id with
        | some t =>
            if t.Status = "Reserved" then
              .err e (db.updateTicket { t with Status := "Available" })
            else .err e db
        | none => .err e db
      else .err e db

/-- `TransactionService.process_transaction_callback` (lines 82-146).  A call
whose `status` equals the stored status returns the record unchanged (lines
94-96).  On `success` the ticket is marked `Sold` when currently `Reserved`
or `Available` (lines 106-117); otherwise a `ValueError` is raised and the
`except:` block (lines 133-146) resets a `Sold` ticket to `Reserved`.  On
`failed` a `Reserved` ticket is released to `Available` (lines 119-125). -/
def process_transaction_callback (db : DB) (transaction_id : Nat) (status : String)
    (payment_transaction_id : Option String) : PyResult Transaction :=
  match db.findTransaction transaction_id with
  | none => .err "Transaction not found" db
  | some transaction =>
    if transaction.Status = status then
      .ok transaction db
    else
      let transaction :=
        { transaction with
            Status := status
            PaymentTransactionID :=
              match payment_transaction_id with
              | some pid => some pid
              | none => transaction.PaymentTransactionID }
      if status = "success" then
        match db.findTicket transaction.TicketID with
        | none => .err "Ticket not found" db
        | some ticket =>
          if ticket.Status ≠ "Reserved" ∧ ticket.Status ≠ "Available" then
            if ticket.Status = "Sold" then
              .err ("Cannot complete transaction - ticket status is " ++ ticket.Status)
                (db.updateTicket { ticket with Status := "Reserved" })
            else
              .err ("Cannot complete transaction - ticket status is " ++ ticket.Status) db
          else
            let db := db.updateTicket { ticket with Status := "Sold" }
            .ok transaction (db.updateTransaction transaction)
      else if status = "failed" then
        let db :=
          match db.findTicket transaction.TicketID with
          | some ticket =>
              if ticket.Status = "Reserved" then
                db.updateTicket { ticket with Status := "Available" }
              else db
          | none => db
        .ok transaction (db.updateTransaction transaction)
      else
        .ok transaction (db.updateTransaction transaction)

/-!  EarningService (src/src/services/earning_service.py) -/

/-- Breakdown returned by `EarningService.calculate_seller_earnings`. -/
structure EarningsBreakdown where
  transaction_amount : Rat
  platform_commission_rate : Rat
  commission_amount : Rat
  seller_earnings : Rat
  net_percentage : Rat
deriving DecidableEq

/-- Default `platform_commission` argument (0.05). -/
def defaultCommissionRate : Rat := 5 / 100

/-- `EarningService.calculate_seller_earnings` (lines 80-105). -/
def calculate_seller_earnings (db : DB) (user_id : Nat) (transaction_amount : Rat)
    (platform_commission : Rat) : Except String EarningsBreakdown :=
  if ¬ db.userExists user_id then
    .error "User not found"
  else
    let commission_amount := transaction_amount * platform_commission
    let seller_earnings := transaction_amount - commission_amount
    .ok { transaction_amount := transaction_amount
          platform_commission_rate := platform_commission
          commission_amount := commission_amount
          seller_earnings := seller_earnings
          net_percentage :=
            if transaction_amount ≠ 0 then seller_earnings / transaction_amount * 100 else 0 }

/-- `EarningService.process_transaction_earnings` (lines 107-133): computes the
breakdown at the default commission rate and inserts one Earning row holding
the `seller_earnings` component. -/
def process_transaction_earnings (db : DB) (seller_id : Nat) (transaction_amount : Rat) :
    PyResult Earning :=
  match calculate_seller_earnings db seller_id transaction_amount defaultCommissionRate with
  | .error e => .err e db
  | .ok breakdown =>
      let r := db.addEarning seller_id breakdown.seller_earnings
      .ok r.1 r.2

/-!  PaymentService (src/src/services/payment_service.py) -/

/-- `PaymentService.update_payment_status` (lines 59-68): overwrite the status
and, when it is the string success, (re)set `Paid_at` to now. -/
def update_payment_status (db : DB) (payment_id : Nat) (status : String) :
    Option Payment × DB :=
  match db.findPayment payment_id with
  | none => (none, db)
  | some payment =>
      let r := db.tick
      let payment :=
        { payment with
            Status := status
            Paid_at := if status = "success" then some r.1 else payment.Paid_at }
      (some payment, r.2.updatePayment payment)

/-- Python `str.lower()` (ASCII case folding suffices for the method
strings involved). -/
def lowerString (s : String) : String := ⟨s.data.map Char.toLower⟩

/-- Outcome of one `_process_*` payment handler: the result dict of
`PaymentService._process_payment_by_method`. -/
structure MethodResult where
  status : String
  message : String
  transaction_reference : Option String
  payment_url : Option String
deriving DecidableEq

/-- Gateway-supplied part of `payment_data` for the digital-wallet branch. -/
structure PaymentData where
  wallet_type : String
deriving DecidableEq

/-- Response of the external MoMo create-payment call, `none` when the HTTP
call itself fails. -/
structure MomoCreateResponse where
  resultCode : Int
  payUrl : Option String
  orderId : Option String
  message : String
deriving DecidableEq

/-- `PaymentService._process_momo_payment` (lines 188-241): every exception is
caught inside, so the handler never raises; it maps the gateway response to a
pending or failed result. -/
def process_momo_payment (momoResp : Option MomoCreateResponse) (_pd : PaymentData) :
    MethodResult :=
  match momoResp with
  | some r =>
      if r.resultCode = 0 ∧ r.payUrl.isSome then
        { status := "pending", message := "MoMo payment initiated successfully",
          transaction_reference := r.orderId, payment_url := r.payUrl }
      else
        { status := "failed", message := r.message,
          transaction_reference := r.orderId, payment_url := none }
  | none =>
      { status := "failed", message := "Error processing MoMo payment",
        transaction_reference := none, payment_url := none }

/-- `PaymentService._process_payment_by_method` (lines 130-152): string
dispatch on the lowercased method; an unsupported method raises. -/
def process_payment_by_method (momoResp : Option MomoCreateResponse) (payment : Payment)
    (pd : PaymentData) : Except String MethodResult :=
  let method := lowerString payment.Methods
  if method = "cash" then
    .ok { status := "success", message := "Cash payment confirmed",
          transaction_reference := some "CASH_REF", payment_url := none }
  else if method = "bank transfer" then
    .ok { status := "success", message := "Bank transfer completed",
          transaction_reference := some "BANK_REF", payment_url := none }
  else if method = "digital wallet" then
    if lowerString pd.wallet_type = "momo" then
      .ok (process_momo_payment momoResp pd)
    else
      .ok { status := "pending", message := "Digital wallet payment initiated",
            transaction_reference := some "WALLET_REF", payment_url := none }
  else if method = "credit card" then
    .ok { status := "success", message := "Credit card payment completed",
          transaction_reference := some "CARD_REF", payment_url := none }
  else
    .error ("Unsupported payment method: " ++ payment.Methods)

/-- `PaymentService.process_payment` (lines 80-128): rejects a non-pending
payment untouched; otherwise runs the method handler and persists the
resulting status, or, when the handler raises, persists the payment as
`failed` (lines 124-128) and re-raises. -/
def process_payment (momoResp : Option MomoCreateResponse) (db : DB) (payment_id : Nat)
    (pd : PaymentData) : PyResult Payment :=
  match db.findPayment payment_id with
  | none => .err "Payment not found" db
  | some payment =>
    if payment.Status ≠ "pending" then
      .err ("Payment is already " ++ payment.Status) db
    else
      match process_payment_by_method momoResp payment pd with
      | .error e =>
          .err ("Payment processing failed: " ++ e)
            (db.updatePayment { payment with Status := "failed" })
      | .ok result =>
          let r := db.tick
          let payment :=
            { payment with
                Status := result.status
                Paid_at := if result.status = "success" then some r.1 else payment.Paid_at }
          .ok payment (r.2.updatePayment payment)

/-- `PaymentService.update_transaction_reference` (lines 312-331): the
assigned `ReferenceNumber` attribute has no column in the transaction model,
so the persisted row is unchanged. -/
def update_transaction_reference (db : DB) (transaction_id : Nat) : PyResult Transaction :=
  match db.findTransaction transaction_id with
  | none => .err "Transaction not found" db
  | some t => .ok t (db.updateTransaction t)

/-- `PaymentService.complete_transaction` (lines 333-360): sets the
transaction status to the string completed and the ticket status to the
lowercase string sold. -/
def complete_transaction (db : DB) (transaction_id : Nat) : PyResult Transaction :=
  match db.findTransaction transaction_id with
  | none => .err "Transaction not found" db
  | some t =>
      let t := { t with Status := "completed" }
      let db := db.updateTransaction t
      if t.TicketID ≠ 0 then
        match db.findTicket t.TicketID with
        | some ticket => .ok t (db.updateTicket { ticket with Status := "sold" })
        | none => .ok t db
      else .ok t db

/-!  MomoPaymentGateway (src/src/utils/momo_payment_gateway.py) and the
callback entry points of payment_controller.py.  The HMAC-SHA256 primitive is
kept abstract as a `mac` function argument; everything the code does around
it (which fields are signed, how the comparison gates the handler) is
concrete. -/

/-- IPN payload after `MomoCallbackSchema` validation (all thirteen schema
fields present).  `extraData` is the string round-tripping the internal
payment id through the gateway; it is modelled as that id, with 0 standing
for the empty (falsy) string. -/
structure IpnParams where
  partnerCode : String
  orderId : String
  requestId : String
  amount : Int
  orderInfo : String
  orderType : String
  transId : String
  resultCode : Int
  message : String
  payType : String
  responseTime : Int
  extraData : Nat
  signature : String
deriving DecidableEq

/-- Raw string signed by `MomoPaymentGateway.verify_ipn_signature` (lines
134-147): the listed fields that are present in the payload, in the listed
order, ampersand-joined (`accessKey` is not a schema field of the inbound
payload, hence absent). -/
def ipn_raw_signature (p : IpnParams) : String :=
  "partnerCode=" ++ p.partnerCode ++
  "&orderId=" ++ p.orderId ++
  "&requestId=" ++ p.requestId ++
  "&amount=" ++ toString p.amount ++
  "&orderInfo=" ++ p.orderInfo ++
  "&orderType=" ++ p.orderType ++
  "&transId=" ++ p.transId ++
  "&resultCode=" ++ toString p.resultCode ++
  "&message=" ++ p.message ++
  "&payType=" ++ p.payType ++
  "&responseTime=" ++ toString p.responseTime ++
  "&extraData=" ++ toString p.extraData

/-- `MomoPaymentGateway.verify_ipn_signature` (lines 117-159): recompute the
HMAC of the raw field string with the shared secret and compare it to the
supplied signature. -/
def verify_ipn_signature (mac : String → String → String) (secret_key : String)
    (p : IpnParams) : Bool :=
  mac secret_key (ipn_raw_signature p) == p.signature

/-- `momo_ipn` entry point (payment_controller.py lines 630-704): verify the
signature, map `resultCode` 0 to success and anything else to failed, update
the payment status, and on success create a seller earning from the linked
transaction (lines 686-698; an earning failure is logged and swallowed).
Returns the HTTP status code and the store. -/
def momo_ipn (mac : String → String → String) (secret_key : String) (db : DB)
    (p : IpnParams) : Nat × DB :=
  if ¬ verify_ipn_signature mac secret_key p then (400, db)
  else if p.extraData = 0 then (400, db)
  else
    let payment_id := p.extraData
    let status := if p.resultCode = 0 then "success" else "failed"
    let r := update_payment_status db payment_id status
    if status = "success" then
      match r.1 with
      | some payment =>
          match payment.TransactionID with
          | some txid =>
              match r.2.findTransaction txid with
              | some transaction =>
                  ((200 : Nat),
                    (process_transaction_earnings r.2 transaction.SellerID
                      transaction.Amount).database)
              | none => (200, r.2)
          | none => (200, r.2)
      | none => (200, r.2)
    else (200, r.2)

/-- Payload of the `momo_callback_process` entry point (its five required
fields; the payload carries no gateway signature at all). -/
structure ProcessCallbackData where
  error_code : Int
  message : String
  payment_id : Nat
  status : String
  transaction_id : String
deriving DecidableEq

/-- `momo_callback_process` entry point (payment_controller.py lines
926-1022): derives a payment status from `error_code` and `status`, updates
the payment, and on success updates the linked transaction and marks the
ticket sold via `complete_transaction` — with no signature verification
anywhere on the path. -/
def momo_callback_process (db : DB) (d : ProcessCallbackData) : Nat × DB :=
  let payment_status :=
    if d.error_code = 0 ∧ d.status = "success" then "success" else "failed"
  let r := update_payment_status db d.payment_id payment_status
  if payment_status = "success" then
    match r.1 with
    | none => (500, r.2)
    | some payment =>
        match payment.TransactionID with
        | none => (400, r.2)
        | some txid =>
            match update_transaction_reference r.2 txid with
            | .err _ db2 => (400, db2)
            | .ok _ db2 =>
                match complete_transaction db2 txid with
                | .err _ db3 => (400, db3)
                | .ok _ db3 => (200, db3)
  else (200, r.2)

/-- Transaction callback entry point
(transaction_controller.py lines 204-254): run
`process_transaction_callback`, then on a success status always create the
seller earning (lines 225-238; an earning failure is logged and swallowed). -/
def transaction_callback (db : DB) (transaction_id : Nat) (status : String)
    (payment_transaction_id : Option String) : Nat × DB :=
  match process_transaction_callback db transaction_id status payment_transaction_id with
  | .err _ db2 => (500, db2)
  | .ok tx db2 =>
      if status = "success" then
        (200, (process_transaction_earnings db2 tx.SellerID tx.Amount).database)
      else (200, db2)

/-- Status of a `PyResult`. -/
def PyResult.isOk {α : Type} : PyResult α → Bool
  | .ok _ _ => true
  | .err _ _ => false

/-- `TotalAmount` of a returned earning (0 on an exception). -/
def PyResult.earningAmount : PyResult Earning → Rat
  | .ok e _ => e.TotalAmount
  | .err _ _ => 0

/-!  Concrete stores used to evaluate the operations on explicit inputs. -/

/-- Ticket 1, owned by seller 10, `Available`. -/
def availTicket : Ticket := { TicketID := 1, OwnerID := 10, Status := "Available" }

/-- Ticket 1 while `Reserved`. -/
def reservedTicket : Ticket := { TicketID := 1, OwnerID := 10, Status := "Reserved" }

/-- Ticket 1 after being `Sold`. -/
def soldTicket : Ticket := { TicketID := 1, OwnerID := 10, Status := "Sold" }

/-- A pending purchase transaction of buyer 2 for ticket 1 at price 50. -/
def txPending : Transaction :=
  { TransactionID := 1, TicketID := 1, BuyerID := 2, SellerID := 10, Amount := 50,
    PaymentMethod := "Credit Card", Status := "pending", PaymentTransactionID := some "uuid4" }

/-- The same transaction after a success settlement. -/
def txSuccess : Transaction := { txPending with Status := "success" }

/-- The pending payment paired 1:1 with transaction 1. -/
def pendingPayment : Payment :=
  { PaymentID := 1, Methods := "digital wallet", Status := "pending", Paid_at := none,
    amount := 50, UserID := 2, Title := "Ticket Purchase", TransactionID := some 1 }

/-- Users 2, 3 (buyers) and 10 (seller); ticket 1 available; nothing else. -/
def dbAvailable : DB :=
  { users := [2, 3, 10], tickets := [availTicket], transactions := [], payments := [],
    earnings := [], nextTransactionID := 1, nextEarningID := 1, clock := 0 }

/-- Like `dbAvailable` with ticket 1 reserved. -/
def dbReserved : DB := { dbAvailable with tickets := [reservedTicket] }

/-- Like `dbAvailable` with ticket 1 sold. -/
def dbSold : DB := { dbAvailable with tickets := [soldTicket] }

/-- Reserved ticket together with its pending transaction. -/
def dbReservedPending : DB :=
  { dbAvailable with
      tickets := [reservedTicket]
      transactions := [txPending]
      nextTransactionID := 2 }

/-- Available ticket together with a pending transaction for it. -/
def dbAvailPending : DB :=
  { dbAvailable with transactions := [txPending], nextTransactionID := 2 }

/-- Sold ticket together with its already settled (success) transaction. -/
def dbSoldSuccess : DB :=
  { dbAvailable with
      tickets := [soldTicket]
      transactions := [txSuccess]
      nextTransactionID := 2 }

/-- Seller 10 only; ticket 1 reserved by some other buyer. -/
def dbSelf : DB :=
  { users := [10], tickets := [reservedTicket], transactions := [], payments := [],
    earnings := [], nextTransactionID := 1, nextEarningID := 1, clock := 0 }

/-- Reserved ticket, pending transaction 1 and its pending payment 1. -/
def dbIpn : DB :=
  { dbAvailable with
      tickets := [reservedTicket]
      transactions := [txPending]
      payments := [pendingPayment]
      nextTransactionID := 2 }

/-- Stand-in for HMAC-SHA256: any concrete keyed function exercises the
comparison logic of the verifier. -/
def macStub : String → String → String := fun _ _ => "sig"

/-- A success IPN payload for payment 1 whose signature matches `macStub`. -/
def ipnSuccess : IpnParams :=
  { partnerCode := "PARTNER", orderId := "ORDER_1_X", requestId := "r1", amount := 50,
    orderInfo := "Payment for Ticket Purchase", orderType := "momo_wallet", transId := "t9",
    resultCode := 0, message := "ok", payType := "qr", responseTime := 7,
    extraData := 1, signature := "sig" }

/-- The same payload carrying a signature that does not match. -/
def badSigIpn : IpnParams := { ipnSuccess with signature := "forged" }

/-- A failure payload for the unauthenticated process-callback entry point. -/
def processPayloadFailed : ProcessCallbackData :=
  { error_code := 1, message := "fail", payment_id := 1, status := "failed",
    transaction_id := "m9" }

/-- Payment 1 with an unsupported method string. -/
def paypalPayment : Payment := { pendingPayment with Methods := "paypal" }

/-- Store whose only payment uses the unsupported method. -/
def dbPaypal : DB := { dbIpn with payments := [paypalPayment] }

/-- Store whose only payment is already terminal (success). -/
def dbPaidPayment : DB := { dbIpn with payments := [{ pendingPayment with Status := "success" }] }

/-- Empty `payment_data`. -/
def walletData : PaymentData := { wallet_type := "" }

/-!  Theorems.  Each claim of the specification is settled below against the
definitions above. -/

/-- C1: the claim requires that under concurrent `initiate_purchase` calls for
the same `Available` ticket exactly one caller succeeds and that the
reservation be a single conditional update.  The source performs a read
(`get_by_id`, validation) followed by a separate write (`update`), so in the
interleaving read-1, read-2, write-1, write-2 both callers read the
`Available` snapshot, both writes succeed, and the store ends with two
pending transactions for the one ticket — both callers observe success. -/
theorem c1_concurrent_initiate_both_succeed :
    initiate_read dbAvailable 1 2 = .ok availTicket ∧
    initiate_read dbAvailable 1 3 = .ok availTicket ∧
    ((initiate_write (initiate_write dbAvailable availTicket 1 2 50 "Credit Card" true).2
        availTicket 1 3 50 "Credit Card" true).2.transactions.map
          (fun t => (t.TicketID, t.Status)) = [(1, "pending"), (1, "pending")]) ∧
    (((initiate_write (initiate_write dbAvailable availTicket 1 2 50 "Credit Card" true).2
        availTicket 1 3 50 "Credit Card" true).2.findTicket 1).map Ticket.Status =
      some "Reserved") := by
  refine ⟨rfl, rfl, ?_, ?_⟩ <;> decide

/-- C4 counterexample: `initiate_transaction` on a ticket whose status is
`Reserved` (not `Available`) does not fail — it returns a freshly created
pending transaction, contradicting the claim that every non-`Available`
status is rejected with `TicketUnavailable` and that no record is created. -/
theorem c4_reserved_ticket_purchase_succeeds :
    (initiate_transaction dbReserved 1 2 50 "Credit Card" true).isOk = true ∧
    (initiate_transaction dbReserved 1 2 50 "Credit Card" true).database.transactions.length
      = 1 := by
  refine ⟨?_, ?_⟩ <;> decide

/-- C4 amended: `initiate_transaction` rejects the purchase (and changes
nothing) exactly when the ticket status is neither `Available` nor
`Reserved` — `Sold` and `Cancelled` are rejected, while `Reserved` is allowed
through as a retry. -/
theorem c4_amended_unavailable_rejected (db : DB) (tid bid : Nat) (amount : Rat)
    (pm : String) (rt : Bool) (t : Ticket) (h : db.findTicket tid = some t)
    (h1 : t.Status ≠ "Available") (h2 : t.Status ≠ "Reserved") :
    initiate_transaction db tid bid amount pm rt =
      .err ("Ticket is not available for purchase. Current status: " ++ t.Status) db := by
  unfold initiate_transaction initiate_read
  rw [h]
  cases rt <;> simp [h, h1, h2]

/-- C4 amended, witness: a `Sold` ticket is rejected with the store left
unchanged. -/
theorem c4_amended_witness :
    initiate_transaction dbSold 1 2 50 "Credit Card" true =
      .err ("Ticket is not available for purchase. Current status: " ++ soldTicket.Status)
        dbSold :=
  c4_amended_unavailable_rejected dbSold 1 2 50 "Credit Card" true soldTicket
    (by decide) (by decide) (by decide)

/-- C5 counterexample: a success settlement reaching a ticket whose status is
`Available` succeeds and marks it `Sold`, contradicting the claim that commit
fails with `InvalidTransition` whenever the ticket is not `Reserved`. -/
theorem c5_available_ticket_marked_sold :
    (process_transaction_callback dbAvailPending 1 "success" none).isOk = true ∧
    ((process_transaction_callback dbAvailPending 1 "success" none).database.findTicket 1).map
        Ticket.Status = some "Sold" := by
  refine ⟨?_, ?_⟩ <;> decide

/-- C5 amended: the commit step of a success settlement moves a ticket to
`Sold` from `Reserved` and equally from `Available`; only the remaining
statuses are rejected. -/
theorem c5_amended_commit_from_reserved_or_available (db : DB) (id : Nat)
    (tx : Transaction) (k : Ticket) (h : db.findTransaction id = some tx)
    (hp : tx.Status = "pending") (hk : db.findTicket tx.TicketID = some k)
    (hks : k.Status = "Reserved" ∨ k.Status = "Available") :
    process_transaction_callback db id "success" none =
      .ok { tx with Status := "success" }
        ((db.updateTicket { k with Status := "Sold" }).updateTransaction
          { tx with Status := "success" }) := by
  unfold process_transaction_callback
  rw [h]
  rcases hks with hks | hks <;> simp [hp, hk, hks]

/-- C5 amended, witness: the `Reserved → Sold` commit at a concrete store. -/
theorem c5_amended_witness :
    process_transaction_callback dbReservedPending 1 "success" none =
      .ok { txPending with Status := "success" }
        ((dbReservedPending.updateTicket { reservedTicket with Status := "Sold" }).updateTransaction
          { txPending with Status := "success" }) :=
  c5_amended_commit_from_reserved_or_available dbReservedPending 1 txPending reservedTicket
    (by decide) (by decide) (by decide) (Or.inl (by decide))

/-- C8: the earnings calculation satisfies `commission_amount = amount *
rate`, `seller_earnings = amount - commission_amount` and `net_percentage =
seller_earnings / amount * 100`; at amount 100 and the default rate 0.05 it
yields 5, 95 and 95; and the post-sale earning recorded by
`process_transaction_earnings` equals the `seller_earnings` of this same
calculation (47.5 for a 50 sale). -/
theorem c8_commission_arithmetic (db : DB) (uid : Nat) (amount rate : Rat)
    (h : db.userExists uid = true) :
    (calculate_seller_earnings db uid amount rate =
      .ok { transaction_amount := amount
            platform_commission_rate := rate
            commission_amount := amount * rate
            seller_earnings := amount - amount * rate
            net_percentage := (amount - amount * rate) / amount * 100 }) ∧
    (calculate_seller_earnings db uid 100 defaultCommissionRate =
      .ok { transaction_amount := 100
            platform_commission_rate := defaultCommissionRate
            commission_amount := 5
            seller_earnings := 95
            net_percentage := 95 }) ∧
    (process_transaction_earnings db uid amount).earningAmount
        = amount - amount * defaultCommissionRate ∧
    (process_transaction_earnings db uid 50).earningAmount = 95 / 2 := by
  have hnet : ∀ a r : Rat,
      (if a ≠ 0 then (a - a * r) / a * 100 else 0) = (a - a * r) / a * 100 := by
    intro a r
    by_cases ha : a = 0 <;> simp [ha]
  have hcalc : ∀ a r : Rat,
      calculate_seller_earnings db uid a r =
        .ok { transaction_amount := a
              platform_commission_rate := r
              commission_amount := a * r
              seller_earnings := a - a * r
              net_percentage := (a - a * r) / a * 100 } := by
    intro a r
    simp [calculate_seller_earnings, h, hnet]
  have hpte : ∀ a : Rat,
      (process_transaction_earnings db uid a).earningAmount
        = a - a * defaultCommissionRate := by
    intro a
    simp [process_transaction_earnings, hcalc, PyResult.earningAmount, DB.addEarning, DB.tick]
  refine ⟨hcalc amount rate, ?_, hpte amount, ?_⟩
  · rw [hcalc]
    norm_num [defaultCommissionRate]
  · rw [hpte]
    norm_num [defaultCommissionRate]

/-- C8 witness: the arithmetic at the concrete store, seller 10, amount 40,
rate one tenth. -/
theorem c8_commission_arithmetic_witness :
    (calculate_seller_earnings dbAvailable 10 40 (1 / 10) =
      .ok { transaction_amount := 40
            platform_commission_rate := 1 / 10
            commission_amount := 40 * (1 / 10)
            seller_earnings := 40 - 40 * (1 / 10)
            net_percentage := (40 - 40 * (1 / 10)) / 40 * 100 }) ∧
    (calculate_seller_earnings dbAvailable 10 100 defaultCommissionRate =
      .ok { transaction_amount := 100
            platform_commission_rate := defaultCommissionRate
            commission_amount := 5
            seller_earnings := 95
            net_percentage := 95 }) ∧
    (process_transaction_earnings dbAvailable 10 40).earningAmount
        = 40 - 40 * defaultCommissionRate ∧
    (process_transaction_earnings dbAvailable 10 50).earningAmount = 95 / 2 :=
  c8_commission_arithmetic dbAvailable 10 40 (1 / 10) (by decide)

/-- C10: `process_payment` raises on a payment that is not `pending` and
leaves the store unchanged; and when the method-specific handler raises on a
pending payment, the payment is persisted with status `failed` before the
error is propagated. -/
theorem c10_process_payment_error_contract (momoResp : Option MomoCreateResponse)
    (db : DB) (pid : Nat) (p : Payment) (pd : PaymentData)
    (h : db.findPayment pid = some p) :
    (p.Status ≠ "pending" →
      process_payment momoResp db pid pd = .err ("Payment is already " ++ p.Status) db) ∧
    (∀ e, p.Status = "pending" → process_payment_by_method momoResp p pd = .error e →
      process_payment momoResp db pid pd =
        .err ("Payment processing failed: " ++ e)
          (db.updatePayment { p with Status := "failed" })) := by
  constructor
  · intro hs
    unfold process_payment
    rw [h]
    simp [hs]
  · intro e hs he
    unfold process_payment
    rw [h]
    simp [hs, he]

/-- C10 witness: a terminal payment is rejected untouched, and an unsupported
method marks the pending payment failed before the error propagates. -/
theorem c10_process_payment_error_contract_witness :
    (process_payment none dbPaidPayment 1 walletData =
      .err ("Payment is already " ++ ({ pendingPayment with Status := "success" } : Payment).Status)
        dbPaidPayment) ∧
    (process_payment none dbPaypal 1 walletData =
      .err ("Payment processing failed: " ++ "Unsupported payment method: paypal")
        (dbPaypal.updatePayment { paypalPayment with Status := "failed" })) := by
  constructor
  · exact (c10_process_payment_error_contract none dbPaidPayment 1
      { pendingPayment with Status := "success" } walletData (by decide)).1 (by decide)
  · exact (c10_process_payment_error_contract none dbPaypal 1 paypalPayment walletData
      (by decide)).2 "Unsupported payment method: paypal" (by decide) (by decide)

/-- C9 counterexample: a self-purchase attempt with `reserve_ticket` set on a
ticket that is currently `Reserved` (held for some other buyer) is rejected,
but the `except:` rollback of `initiate_transaction` then releases the
ticket to `Available` — the ticket status is changed by the rejected call. -/
theorem c9_self_purchase_releases_reservation :
    initiate_transaction dbSelf 1 10 50 "cash" true =
      .err "Cannot purchase your own ticket"
        (dbSelf.updateTicket { reservedTicket with Status := "Available" }) ∧
    ((initiate_transaction dbSelf 1 10 50 "cash" true).database.findTicket 1).map
        Ticket.Status = some "Available" := by
  refine ⟨?_, ?_⟩ <;> decide

/-- C9 amended: self-purchase is rejected before any reservation attempt and
no transaction row is created; the store is unchanged unless `reserve_ticket`
was requested while the ticket was already `Reserved`, in which case the
error rollback resets that foreign reservation to `Available`. -/
theorem c9_amended_self_purchase_rejected (db : DB) (tid bid : Nat) (amount : Rat)
    (pm : String) (rt : Bool) (t : Ticket) (h : db.findTicket tid = some t)
    (hown : t.OwnerID = bid)
    (hstat : t.Status = "Available" ∨ t.Status = "Reserved")
    (hbuyer : db.userExists bid = true) :
    initiate_transaction db tid bid amount pm rt =
      .err "Cannot purchase your own ticket"
        (if rt ∧ t.Status = "Reserved" then
          db.updateTicket { t with Status := "Available" } else db) := by
  unfold initiate_transaction initiate_read
  rw [h]
  rcases hstat with hs | hs <;> cases rt <;> simp [h, hs, hown, hbuyer]

/-- C2 counterexample: two success deliveries of the same settlement to the
transaction callback entry point leave two Earning rows, not one — the
earning creation (transaction_controller.py lines 225-238) runs on every
success delivery, although the service-level settle was a replay no-op. -/
theorem c2_duplicate_success_creates_two_earnings :
    ((transaction_callback dbReservedPending 1 "success" (some "m1")).2.earnings.length = 1) ∧
    ((transaction_callback (transaction_callback dbReservedPending 1 "success" (some "m1")).2
        1 "success" (some "m1")).2.earnings.length = 2) := by
  refine ⟨?_, ?_⟩ <;> decide

/-- C2 amended: at the service level, `process_transaction_callback` on a
transaction that already carries the delivered status is a no-op returning
the stored record with the store unchanged; the duplicate-earning creation
happens above it, in the callback entry points. -/
theorem c2_amended_service_replay_noop (db : DB) (id : Nat) (status : String)
    (ptid : Option String) (tx : Transaction) (h : db.findTransaction id = some tx)
    (hs : tx.Status = status) :
    process_transaction_callback db id status ptid = .ok tx db := by
  unfold process_transaction_callback
  rw [h]
  simp [hs]

/-- C2 amended, witness: replaying success on an already successful
transaction returns it unchanged. -/
theorem c2_amended_witness :
    process_transaction_callback dbSoldSuccess 1 "success" (some "m1") =
      .ok txSuccess dbSoldSuccess :=
  c2_amended_service_replay_noop dbSoldSuccess 1 "success" (some "m1") txSuccess
    (by decide) (by decide)

/-- C3 counterexample: a transaction already terminal with `success` is
flipped to `failed` by a later conflicting callback — the duplicate guard at
lines 94-96 only catches a replay of the same status, so the first terminal
outcome does not win. -/
theorem c3_conflicting_outcome_overwrites :
    process_transaction_callback dbSoldSuccess 1 "failed" none =
      .ok { txSuccess with Status := "failed" }
        (dbSoldSuccess.updateTransaction { txSuccess with Status := "failed" }) ∧
    ((process_transaction_callback dbSoldSuccess 1 "failed" none).database.findTransaction 1).map
        Transaction.Status = some "failed" := by
  refine ⟨?_, ?_⟩ <;> decide

/-- C3 amended: a settle replay with the same outcome changes nothing, but a
conflicting terminal outcome overwrites the stored status: on a `success`
transaction whose ticket is `Sold`, a `failed` callback rewrites the
transaction to `failed` (leaving the ticket `Sold`). -/
theorem c3_amended_conflict_overwrites (db : DB) (id : Nat) (tx : Transaction) (k : Ticket)
    (h : db.findTransaction id = some tx) (hs : tx.Status = "success")
    (hk : db.findTicket tx.TicketID = some k) (hks : k.Status = "Sold") :
    process_transaction_callback db id "failed" none =
      .ok { tx with Status := "failed" }
        (db.updateTransaction { tx with Status := "failed" }) := by
  unfold process_transaction_callback
  rw [h]
  simp [hs, hk, hks]

/-- C3 amended, witness: the success-then-failed overwrite at a concrete
store. -/
theorem c3_amended_witness :
    process_transaction_callback dbSoldSuccess 1 "failed" none =
      .ok { txSuccess with Status := "failed" }
        (dbSoldSuccess.updateTransaction { txSuccess with Status := "failed" }) :=
  c3_amended_conflict_overwrites dbSoldSuccess 1 txSuccess soldTicket
    (by decide) (by decide) (by decide) (by decide)

/-- C6 counterexample: the `momo_callback_process` entry point verifies no
signature at all, yet mutates the payment — a payload with no authenticated
signature flips the pending payment to `failed`. -/
theorem c6_process_callback_mutates_unverified :
    ((dbIpn.findPayment 1).map Payment.Status = some "pending") ∧
    (((momo_callback_process dbIpn processPayloadFailed).2.findPayment 1).map Payment.Status =
      some "failed") := by
  refine ⟨?_, ?_⟩ <;> decide

/-- C6 amended: the entry points that do verify (such as `momo_ipn`) reject a
payload whose signature differs from the recomputed HMAC — which covers a
tampered `resultCode`, a signed field — without touching the store; but
`momo_callback_process` mutates payment, transaction and ticket state with no
signature verification on its path. -/
theorem c6_amended_ipn_rejects_bad_signature (mac : String → String → String)
    (secret : String) (db : DB) (p : IpnParams)
    (h : verify_ipn_signature mac secret p = false) :
    momo_ipn mac secret db p = (400, db) := by
  unfold momo_ipn
  simp [h]

/-- C6 amended, witness: a forged signature is rejected with the store left
unchanged. -/
theorem c6_amended_witness :
    momo_ipn macStub "secret" dbIpn badSigIpn = (400, dbIpn) :=
  c6_amended_ipn_rejects_bad_signature macStub "secret" dbIpn badSigIpn (by decide)

/-- C7 counterexample: after `momo_ipn` processes a valid success callback,
the payment is terminal `success` while its 1:1 transaction is still
`pending` — the terminal-status agreement invariant does not hold. -/
theorem c7_terminal_payment_pending_transaction :
    (((momo_ipn macStub "secret" dbIpn ipnSuccess).2.findPayment 1).map Payment.Status =
      some "success") ∧
    (((momo_ipn macStub "secret" dbIpn ipnSuccess).2.findTransaction 1).map Transaction.Status =
      some "pending") := by
  refine ⟨?_, ?_⟩ <;> decide

/-- Helper: `update_payment_status` never touches the transactions table. -/
theorem update_payment_status_transactions (db : DB) (pid : Nat) (s : String) :
    (update_payment_status db pid s).2.transactions = db.transactions := by
  unfold update_payment_status
  cases h : db.findPayment pid <;> simp [DB.tick, DB.updatePayment]

/-- Helper: earning creation never touches the transactions table. -/
theorem process_transaction_earnings_transactions (db : DB) (sid : Nat) (a : Rat) :
    (process_transaction_earnings db sid a).database.transactions = db.transactions := by
  unfold process_transaction_earnings
  cases h : calculate_seller_earnings db sid a defaultCommissionRate <;>
    simp [PyResult.database, DB.addEarning, DB.tick]

/-- C7 amended: `momo_ipn` leaves every transaction row exactly as it was —
it settles only the payment side (plus an earning row), so a payment driven
to a terminal status by this entry point keeps its transaction pending until
the separate transaction-callback entry point is invoked. -/
theorem c7_amended_ipn_preserves_transactions (mac : String → String → String)
    (secret : String) (db : DB) (p : IpnParams) :
    (momo_ipn mac secret db p).2.transactions = db.transactions := by
  unfold momo_ipn
  split
  · rfl
  split
  · rfl
  split
  · dsimp only
    rw [if_pos rfl]
    split
    · split
      · split
        · simp [update_payment_status_transactions,
            process_transaction_earnings_transactions]
        · simp [update_payment_status_transactions]
      · simp [update_payment_status_transactions]
    · simp [update_payment_status_transactions]
  · dsimp only
    rw [if_neg (by decide)]
    simp [update_payment_status_transactions]

/-- C9 amended, witness: the self-purchase rejection at a concrete store. -/
theorem c9_amended_witness :
    initiate_transaction dbSelf 1 10 50 "cash" true =
      .err "Cannot purchase your own ticket"
        (if (true : Bool) ∧ reservedTicket.Status = "Reserved" then
          dbSelf.updateTicket { reservedTicket with Status := "Available" } else dbSelf) :=
  c9_amended_self_purchase_rejected dbSelf 1 10 50 "cash" true reservedTicket
    (by decide) (by decide) (Or.inr (by decide)) (by decide)

end TicketResell
